import Mathlib

/-
  Shallow embedding of the lux microkernel core (src/src/file.c,
  src/src/syscalls/queue.c, src/src/servers/general.c) and proofs about it.

  Machine integers are modelled as Nat / Int; the functions below are
  direct transcriptions of the C sources.  Constants whose defining
  headers (errno.h, io.h, fcntl-style flags, servers.h) are not part of
  the sources are modelled from the spec and marked as such.
-/

namespace Lux

/-- Modelled from the spec: POSIX-style errno code EPERM (errno.h is not in the sources; the spec says errors are returned as negative POSIX-style integers). -/
def EPERM : Int := 1

/-- Modelled from the spec: POSIX-style errno code ESRCH. -/
def ESRCH : Int := 3

/-- Modelled from the spec: POSIX-style errno code EBADF. -/
def EBADF : Int := 9

/-- Modelled from the spec: POSIX-style errno code ENOMEM. -/
def ENOMEM : Int := 12

/-- Modelled from the spec: POSIX-style errno code EINVAL. -/
def EINVAL : Int := 22

/-- Modelled from the spec: SEEK_SET whence value (header not in the sources; POSIX value 0). -/
def SEEK_SET : Int := 0

/-- Modelled from the spec: SEEK_CUR whence value (POSIX value 1). -/
def SEEK_CUR : Int := 1

/-- Modelled from the spec: SEEK_END whence value (POSIX value 2); file.c has no case for it. -/
def SEEK_END : Int := 2

/-- Modelled from the spec: descriptor flag bits (io.h is not in the sources). The flags named by the spec are modelled as distinct single bits; O_RDONLY must be a nonzero bit because file.c tests it with a bitwise and. -/
def O_RDONLY : Nat := 1

/-- Modelled from the spec: write-permission flag bit. -/
def O_WRONLY : Nat := 2

/-- Modelled from the spec: append flag bit. -/
def O_APPEND : Nat := 4

/-- Modelled from the spec: close-on-exec flag bit. -/
def O_CLOEXEC : Nat := 8

/-- Modelled from the spec: close-on-fork flag bit. -/
def O_CLOFORK : Nat := 16

/-- Modelled from the spec: nonblocking flag bit. -/
def O_NONBLOCK : Nat := 32

/-- Modelled from the spec: synchronous write flag bit. -/
def O_SYNC : Nat := 64

/-- Modelled from the spec: data-synchronous write flag bit. -/
def O_DSYNC : Nat := 128

/-- Modelled from the spec: fcntl F_GETFD command (POSIX value 1). -/
def F_GETFD : Int := 1

/-- Modelled from the spec: fcntl F_SETFD command (POSIX value 2). -/
def F_SETFD : Int := 2

/-- Modelled from the spec: fcntl F_GETFL command (POSIX value 3). -/
def F_GETFL : Int := 3

/-- Modelled from the spec: fcntl F_SETFL command (POSIX value 4). -/
def F_SETFL : Int := 4

/-- Modelled from the spec: FD_CLOEXEC bit of the fcntl F_SETFD argument. -/
def FD_CLOEXEC : Nat := 1

/-- Modelled from the spec: FD_CLOFORK bit of the fcntl F_SETFD argument. -/
def FD_CLOFORK : Nat := 2

/-- Modelled from the spec: size of a process descriptor table (io.h is not in the sources). -/
def MAX_IO_DESCRIPTORS : Nat := 1024

/-- Modelled from the spec: COMMAND_READ command number (servers.h is not in the sources; only distinctness from COMMAND_WRITE matters). -/
def COMMAND_READ : Nat := 19

/-- Modelled from the spec: COMMAND_WRITE command number. -/
def COMMAND_WRITE : Nat := 20

/-- Modelled from the spec: wire size of MessageHeader, 17 bytes of fields plus 3 bytes of padding per the wire-exact table. -/
def sizeofMessageHeader : Nat := 20

/-- Modelled from the spec: sizeof RWCommand (servers.h is not in the sources; the exact value is irrelevant to the claims). -/
def sizeofRWCommand : Nat := 1120

/-- FileDescriptor from kernel/file.h as used by file.c: absolute path, raw path, device name, driver-assigned id, byte position, server socket, refcount, char-device flag. -/
structure FileDescriptor where
  abspath : String
  path : String
  device : String
  id : Nat
  position : Int
  sd : Nat
  refCount : Nat
  charDev : Bool
deriving DecidableEq, Repr

/-- IODescriptor slot of a process descriptor table; data is the attached FileDescriptor (void pointer in C, null modelled as none). -/
structure IODescriptor where
  valid : Bool
  type : Nat
  flags : Nat
  data : Option FileDescriptor
deriving DecidableEq, Repr

/-- The all-invalid descriptor slot (calloc-zeroed table entry). -/
def emptyDescriptor : IODescriptor :=
  { valid := false, type := 0, flags := 0, data := none }

/-- Process record: the fields of the registry entry that file.c and general.c read. -/
structure Process where
  pid : Nat
  parent : Nat
  user : Nat
  group : Nat
  umask : Nat
  cwd : String
  io : List IODescriptor
deriving DecidableEq, Repr

/-- Wire message header, per the spec wire-exact table and the fields general.c reads. -/
structure MessageHeader where
  command : Nat
  length : Nat
  id : Nat
  requester : Nat
  response : Bool
deriving DecidableEq, Repr

/-- Header prefix of syscall-forwarding commands: a MessageHeader plus the caller-assigned correlation id that file.c writes. -/
structure SyscallHeader where
  header : MessageHeader
  id : Nat
deriving DecidableEq, Repr

/-- RWCommand message built by readFile and writeFile (fields as written by file.c; calloc zeroes the rest). -/
structure RWCommand where
  header : SyscallHeader
  uid : Nat
  gid : Nat
  position : Int
  flags : Nat
  length : Nat
  id : Nat
  device : String
  path : String
  silent : Bool
  data : List Nat
deriving DecidableEq, Repr

/-- readFile from file.c. The embedding returns the RWCommand handed to requestServer (requestServer itself and the thread-to-process lookup live outside the sources, so the process is taken directly and the server round-trip is elided); early error returns become Except.error. -/
def readFile (p : Process) (msgId : Nat) (iod : IODescriptor) (count : Nat) :
    Except Int RWCommand :=
  match iod.data with
  | none => Except.error (-EBADF)
  | some fd =>
    if iod.flags &&& O_RDONLY = 0 then Except.error (-EPERM)
    else Except.ok
      { header := { header := { command := COMMAND_READ, length := sizeofRWCommand,
                                id := 0, requester := 0, response := false },
                    id := msgId },
        uid := p.user, gid := p.group,
        position := fd.position,
        flags := iod.flags,
        length := count,
        id := fd.id,
        device := fd.device,
        path := fd.path,
        silent := false,
        data := [] }

/-- writeFile from file.c. Returns the RWCommand handed to requestServer together with the (unchanged) FileDescriptor: the C body performs no store to the descriptor, which the embedding makes explicit by returning it as is. -/
def writeFile (p : Process) (msgId : Nat) (iod : IODescriptor) (buffer : List Nat)
    (count : Nat) : Except Int (RWCommand × FileDescriptor) :=
  match iod.data with
  | none => Except.error (-EBADF)
  | some fd =>
    if iod.flags &&& O_WRONLY = 0 then Except.error (-EPERM)
    else Except.ok
      ({ header := { header := { command := COMMAND_WRITE, length := sizeofRWCommand + count,
                                 id := 0, requester := 0, response := false },
                     id := msgId },
         uid := p.user, gid := p.group,
         position := if iod.flags &&& O_APPEND ≠ 0 then -1 else fd.position,
         flags := iod.flags,
         length := count,
         id := fd.id,
         device := fd.device,
         path := fd.abspath,
         silent := fd.charDev,
         data := buffer.take count }, fd)

/-- lseek from file.c; returns the C return value together with the updated process (file->position is stored through the descriptor table). The thread-to-process lookup lives outside the sources, so the process is taken directly. -/
def lseek (p : Process) (fd : Int) (offset : Int) (whence : Int) : Int × Process :=
  if fd < 0 ∨ (MAX_IO_DESCRIPTORS : Int) ≤ fd then (-EBADF, p)
  else
    let i := fd.toNat
    let iod := p.io.getD i emptyDescriptor
    match iod.data with
    | none => (-EBADF, p)
    | some file =>
      let newOffset : Int :=
        if whence = SEEK_SET then offset
        else if whence = SEEK_CUR then file.position + offset
        else -1
      if newOffset < 0 then (-EINVAL, p)
      else (newOffset,
            { p with io := p.io.set i { iod with data := some { file with position := newOffset } } })

/-- Transcription of the C idiom if cond then flags or mask else flags and-not mask used by fcntl setters. -/
def setIf (c : Bool) (x m : Nat) : Nat :=
  if c then x ||| m else Nat.ldiff x m

/-- fcntl from file.c; returns the C return value together with the updated process. -/
def fcntl (p : Process) (fd : Int) (cmd : Int) (arg : Nat) : Int × Process :=
  if fd < 0 ∨ (MAX_IO_DESCRIPTORS : Int) ≤ fd then (-EBADF, p)
  else
    let i := fd.toNat
    let iod := p.io.getD i emptyDescriptor
    if iod.valid = false then (-EBADF, p)
    else if cmd = F_GETFD then
      (((if iod.flags &&& O_CLOEXEC ≠ 0 then FD_CLOEXEC else 0) |||
        (if iod.flags &&& O_CLOFORK ≠ 0 then FD_CLOFORK else 0) : Nat), p)
    else if cmd = F_GETFL then
      ((iod.flags &&& (O_APPEND ||| O_NONBLOCK ||| O_SYNC ||| O_DSYNC) : Nat), p)
    else if cmd = F_SETFD then
      let f1 := setIf (arg &&& FD_CLOEXEC ≠ 0) iod.flags O_CLOEXEC
      let f2 := setIf (arg &&& FD_CLOFORK ≠ 0) f1 O_CLOFORK
      (0, { p with io := p.io.set i { iod with flags := f2 } })
    else if cmd = F_SETFL then
      let f1 := setIf (arg &&& O_APPEND ≠ 0) iod.flags O_APPEND
      let f2 := setIf (arg &&& O_NONBLOCK ≠ 0) f1 O_NONBLOCK
      let f3 := setIf (arg &&& O_SYNC ≠ 0) f2 O_SYNC
      let f4 := setIf (arg &&& O_DSYNC ≠ 0) f3 O_DSYNC
      (0, { p with io := p.io.set i { iod with flags := f4 } })
    else (-EINVAL, p)

/-- Byte position recorded for descriptor slot i of process p, if a file is attached there. -/
def filePosition (p : Process) (i : Nat) : Option Int :=
  (p.io.getD i emptyDescriptor).data.map (fun f => f.position)

/-- Thread status values of kernel/sched.h as used by queue.c. -/
inductive ThreadStatus where
  | running
  | queued
  | blocked
  | sleeping
  | zombie
deriving DecidableEq, Repr

/-- SyscallRequest embedded in each Thread (kernel/syscalls.h): flags, function number, parameters and return value. The intrusive next pointer becomes an extrinsic queue of thread ids and the thread back-pointer becomes the owning tid. -/
structure SyscallRequest where
  busy : Bool
  queued : Bool
  unblock : Bool
  retry : Bool
  function : Nat
  params : List Int
  ret : Int
deriving DecidableEq, Repr

/-- Thread record: the fields queue.c reads and writes. contextStatus models the saved RAX slot of the platform context, the register platformSetContextStatus writes the syscall return value into. -/
structure Thread where
  tid : Nat
  pid : Nat
  status : ThreadStatus
  priority : Nat
  time : Nat
  contextStatus : Int
  syscall : SyscallRequest
deriving DecidableEq, Repr

/-- Kernel state seen by queue.c: the thread registry and the global request list. The C threads requests through an intrusive next pointer; since each request is embedded in exactly one thread, the list is modelled as the FIFO of owning thread ids and every record access goes through the registry. -/
structure KState where
  threads : List Thread
  queue : List Nat
deriving DecidableEq, Repr

/-- Thread registry lookup (getThread of the scheduler, resolving a request's thread back-pointer). -/
def findThread (ts : List Thread) (tid : Nat) : Option Thread :=
  ts.find? (fun t => t.tid == tid)

/-- getThread on a kernel state. -/
def getThread (s : KState) (tid : Nat) : Option Thread :=
  findThread s.threads tid

/-- Store back a mutated thread record (writes through the registry; in C this is a store through the request's thread pointer). -/
def updateList (t : Thread) (ts : List Thread) : List Thread :=
  ts.map (fun u => if u.tid == t.tid then t else u)

/-- updateList lifted to kernel states. -/
def updateThread (s : KState) (t : Thread) : KState :=
  { s with threads := updateList t s.threads }

/-- Flag updates performed on a request by syscallEnqueue (queue.c lines 61 to 77): queued set, unblock and busy cleared, retry set when the owning thread is already BLOCKED. -/
def enqMark (status : ThreadStatus) (r : SyscallRequest) : SyscallRequest :=
  { r with queued := true, unblock := false, busy := false,
           retry := if status = ThreadStatus.blocked then true else r.retry }

/-- Flag updates performed on a request by syscallDequeue (queue.c lines 97 to 98): busy set, queued cleared. -/
def deqMark (r : SyscallRequest) : SyscallRequest :=
  { r with busy := true, queued := false }

/-- syscallEnqueue from queue.c: mark the thread's embedded request as queued and link it at the tail of the global request list. The thread back-pointer of a request is always valid in the kernel; if the tid is absent from the registry the model still links the request. -/
def syscallEnqueue (s : KState) (tid : Nat) : KState :=
  match getThread s tid with
  | none => { s with queue := s.queue ++ [tid] }
  | some t =>
    let s1 := updateThread s { t with syscall := enqMark t.status t.syscall }
    { s1 with queue := s1.queue ++ [tid] }

/-- syscallDequeue from queue.c: take the head of the global request list, mark it busy, return it (none on an empty queue). -/
def syscallDequeue (s : KState) : Option (Nat × KState) :=
  match s.queue with
  | [] => none
  | tid :: rest =>
    let s1 : KState := { s with queue := rest }
    match getThread s1 tid with
    | none => some (tid, s1)
    | some t => some (tid, updateThread s1 { t with syscall := deqMark t.syscall })

/-- Fast-path function-number ranges of queue.c line 32 to 34; the numeric bounds come from kernel/syscalls.h, which is not in the sources, so they are parameters. -/
structure FastPathBounds where
  ipcStart : Nat
  ipcEnd : Nat
  rwStart : Nat
  rwEnd : Nat
  lseekNum : Nat
deriving DecidableEq, Repr

/-- The fast-path test of queue.c: function number in the IPC range, the read-write range, or equal to SYSCALL_LSEEK. -/
def isFastPath (b : FastPathBounds) (fn : Nat) : Bool :=
  (b.ipcStart ≤ fn && fn ≤ b.ipcEnd) || (b.rwStart ≤ fn && fn ≤ b.rwEnd) || fn == b.lseekNum

/-- Modelled from the spec: effect of one syscallDispatchTable handler (dispatch.c is not in the sources). Per the spec a handler computes the return value, sets unblock and retry on the request, and may move the thread to another status (exit-style handlers terminate the thread). -/
structure HandlerOut where
  ret : Int
  unblock : Bool
  retry : Bool
  newStatus : Option ThreadStatus

/-- Modelled from the spec: a dispatch-table handler as a function of the request it receives. -/
def Handler : Type := SyscallRequest → HandlerOut

/-- Run a handler on a thread's embedded request: store ret, unblock and retry into the request and apply any status change the handler makes. -/
def runHandler (h : Handler) (t : Thread) : Thread :=
  let out := h t.syscall
  { t with
    syscall := { t.syscall with ret := out.ret, unblock := out.unblock, retry := out.retry },
    status := out.newStatus.getD t.status }

/-- platformCreateSyscallContext from platform/x86_64/sched/context.c: rebuild the thread's embedded request from the saved trap registers; clears busy and retry, leaves queued and unblock untouched. -/
def platformCreateSyscallContext (t : Thread) (fn : Nat) (params : List Int) : Thread :=
  { t with syscall :=
      { t.syscall with busy := false, function := fn,
                       params := params, retry := false } }

/-- Result of syscallHandle: the new kernel state, whether the handler was dispatched synchronously in trap context, and whether the thread was resumed via platformLoadContext. -/
structure HandleResult where
  state : KState
  dispatched : Bool
  resumed : Bool
deriving DecidableEq, Repr

/-- syscallHandle from queue.c: save the trap context (which places the function number in the saved return-register slot), build the request, then either dispatch synchronously on the fast path or enqueue and block. fn and params are the trap-frame registers the C reads through the saved context. -/
def syscallHandle (b : FastPathBounds) (h : Handler) (fn : Nat) (params : List Int)
    (tid : Nat) (s : KState) : HandleResult :=
  match getThread s tid with
  | none => { state := s, dispatched := false, resumed := false }
  | some t0 =>
    let t1 := platformCreateSyscallContext { t0 with contextStatus := (fn : Int) } fn params
    if isFastPath b fn then
      let t2 := runHandler h t1
      if t2.syscall.unblock then
        { state := updateThread s { t2 with status := ThreadStatus.running,
                                            contextStatus := t2.syscall.ret },
          dispatched := true, resumed := true }
      else
        { state := updateThread s { t2 with status := ThreadStatus.blocked },
          dispatched := true, resumed := false }
    else
      let s1 := syscallEnqueue (updateThread s t1) tid
      match getThread s1 tid with
      | none => { state := s1, dispatched := false, resumed := false }
      | some t2 =>
        { state := updateThread s1 { t2 with status := ThreadStatus.blocked },
          dispatched := false, resumed := false }

/-- Modelled from the spec: terminateThread (scheduler code not in the sources) moves the thread to ZOMBIE. -/
def terminateThread (t : Thread) : Thread :=
  { t with status := ThreadStatus.zombie }

/-- The trailing unblock check of syscallProcess (queue.c lines 138 to 143): a thread still BLOCKED whose request asks to unblock is rescheduled with a fresh timeslice and its request marked not busy. -/
def unblockCheck (timeslice : Nat → Nat) (t : Thread) : Thread :=
  if t.status = ThreadStatus.blocked && t.syscall.unblock then
    { t with status := ThreadStatus.queued, time := timeslice t.priority,
             syscall := { t.syscall with busy := false } }
  else t

/-- Result of syscallProcess: the new kernel state, the C return value, and whether a dispatch-table handler was actually invoked. -/
structure ProcessResult where
  state : KState
  retval : Nat
  ranHandler : Bool
deriving DecidableEq, Repr

/-- syscallProcess from queue.c, parameterised by MAX_SYSCALL and dispatch-table occupancy (kernel/syscalls.h and dispatch.c are not in the sources), the spec-modelled signalHandle effect sigH, the spec-modelled handler h, and schedTimeslice. threadUseContext only switches address space and has no effect on the modelled state. -/
def syscallProcess (maxSyscall : Nat) (defined : Nat → Bool) (sigH : Thread → Thread)
    (h : Handler) (timeslice : Nat → Nat) (s : KState) : ProcessResult :=
  if s.queue = [] then { state := s, retval := 0, ranHandler := false }
  else match syscallDequeue s with
  | none => { state := s, retval := 0, ranHandler := false }
  | some (tid, s1) =>
    match getThread s1 tid with
    | none => { state := s1, retval := 0, ranHandler := false }
    | some t =>
      if t.status ≠ ThreadStatus.blocked then { state := s1, retval := 0, ranHandler := false }
      else if maxSyscall < t.syscall.function ∨ defined t.syscall.function = false then
        { state := updateThread s1 (terminateThread t), retval := 1, ranHandler := false }
      else
        let t1 := sigH t
        let s2 := updateThread s1 t1
        if t1.status = ThreadStatus.zombie then
          { state := s2, retval := 1, ranHandler := false }
        else if t1.status = ThreadStatus.queued then
          { state := syscallEnqueue s2 tid, retval := 1, ranHandler := false }
        else if t1.status = ThreadStatus.blocked then
          let t2 := runHandler h t1
          let t3 := { t2 with contextStatus := t2.syscall.ret }
          { state := updateThread s2 (unblockCheck timeslice t3), retval := 1, ranHandler := true }
        else
          { state := s2, retval := 1, ranHandler := false }

/-- Result of handleGeneralRequest: dropped by a guard, dropped for an unhandled command, or dispatched to the command's table entry. -/
inductive GeneralResult where
  | rejected
  | unhandled
  | dispatched (command : Nat)
deriving DecidableEq, Repr

/-- Process registry lookup used by general.c. -/
def getProcess (ps : List Process) (pid : Nat) : Option Process :=
  ps.find? (fun p => p.pid == pid)

/-- handleGeneralRequest from servers/general.c, parameterised by the Router pid (getLumenPID) and the occupancy of the generalRequests dispatch table. -/
def handleGeneralRequest (lumenPid : Nat) (threads : List Thread) (processes : List Process)
    (table : Nat → Bool) (req : MessageHeader) : GeneralResult :=
  if req.response || req.requester == 0 || req.length < sizeofMessageHeader then
    GeneralResult.rejected
  else match findThread threads req.requester with
  | none => GeneralResult.rejected
  | some t =>
    if req.requester == lumenPid ||
        (match getProcess processes t.pid with
         | none => false
         | some p => p.parent == lumenPid) then
      if table req.command then GeneralResult.dispatched req.command
      else GeneralResult.unhandled
    else GeneralResult.rejected

/- Concrete fixtures used by counterexamples and witnesses. -/

/-- A file opened via a relative path: open resolved the absolute path into abspath, while the raw path survives in path. -/
def fileA : FileDescriptor :=
  { abspath := "/etc/hostname", path := "hostname", device := "ramdisk",
    id := 3, position := 5, sd := 4, refCount := 1, charDev := false }

/-- Descriptor slot holding fileA, opened for reading and writing. -/
def iodA : IODescriptor :=
  { valid := true, type := 1, flags := O_RDONLY ||| O_WRONLY, data := some fileA }

/-- A process whose descriptor table has fileA in slot 0. -/
def procA : Process :=
  { pid := 2, parent := 1, user := 0, group := 0, umask := 0, cwd := "/etc", io := [iodA] }

/- Helper lemma about descriptor-table access. -/

theorem length_of_getElem? {l : List IODescriptor} {i : Nat} {iod : IODescriptor}
    (hio : l[i]? = some iod) : i < l.length :=
  (List.getElem?_eq_some_iff.mp hio).1

/-- C2: at a concrete descriptor opened through a relative path, readFile transmits the raw stored path while writeFile transmits the resolved absolute path, so the two RWCommand path fields differ and readFile's is not the absolute path. -/
theorem readFile_sends_raw_path :
    ∃ mr mw fd1,
      readFile procA 7 iodA 16 = Except.ok mr ∧
      writeFile procA 8 iodA [104, 105] 2 = Except.ok (mw, fd1) ∧
      mr.path = "hostname" ∧
      mw.path = "/etc/hostname" ∧
      mr.path ≠ fileA.abspath ∧
      mr.path ≠ mw.path := by
  refine ⟨_, _, _, rfl, rfl, rfl, rfl, by decide, by decide⟩

/-- C3 counterexample: on a valid FILE descriptor and the unknown whence SEEK_END, lseek returns -EINVAL (= -22), which is a negated errno value and not -1, refuting the claim that it returns -1 rather than a negated errno. -/
theorem lseek_unknown_whence_counterexample :
    (lseek procA 0 10 SEEK_END).1 = -EINVAL ∧
    (lseek procA 0 10 SEEK_END).1 ≠ -1 ∧
    EINVAL = 22 := by
  refine ⟨rfl, by decide, rfl⟩

/-- C3 (amended): lseek has no SEEK_END case, and for every whence other than SEEK_SET and SEEK_CUR on a valid FILE descriptor it returns -EINVAL (a negated errno, not -1) and leaves the process, hence the position, unchanged. -/
theorem lseek_unknown_whence_einval (p : Process) (fd : Int) (iod : IODescriptor)
    (file : FileDescriptor) (offset whence : Int)
    (h0 : 0 ≤ fd) (h1 : fd < (MAX_IO_DESCRIPTORS : Int))
    (hio : p.io[fd.toNat]? = some iod)
    (hdata : iod.data = some file)
    (hws : whence ≠ SEEK_SET) (hwc : whence ≠ SEEK_CUR) :
    lseek p fd offset whence = (-EINVAL, p) := by
  have hb : ¬(fd < 0 ∨ (MAX_IO_DESCRIPTORS : Int) ≤ fd) :=
    not_or.mpr ⟨not_lt.mpr h0, not_le.mpr h1⟩
  simp [lseek, hb, hio, hdata, hws, hwc, EINVAL]

/-- C3 witness: the amended theorem applied at slot 0 of procA with whence 5. -/
theorem lseek_unknown_whence_einval_witness :
    lseek procA 0 10 5 = (-EINVAL, procA) :=
  lseek_unknown_whence_einval procA 0 iodA fileA 10 5 (by decide) (by decide) rfl rfl
    (by decide) (by decide)

/-- C4: on a valid FILE descriptor with nonnegative current position, lseek with 0 and SEEK_CUR returns the position and leaves it unchanged; lseek with k ≥ 0 and SEEK_SET returns k and sets the position to k; lseek with k < 0 and SEEK_SET returns -EINVAL and leaves the process unchanged. -/
theorem lseek_cur_set_spec (p : Process) (fd : Int) (iod : IODescriptor)
    (file : FileDescriptor)
    (h0 : 0 ≤ fd) (h1 : fd < (MAX_IO_DESCRIPTORS : Int))
    (hio : p.io[fd.toNat]? = some iod)
    (hdata : iod.data = some file)
    (hpos : 0 ≤ file.position) :
    ((lseek p fd 0 SEEK_CUR).1 = file.position ∧
      filePosition (lseek p fd 0 SEEK_CUR).2 fd.toNat = some file.position) ∧
    (∀ k : Int, 0 ≤ k →
      (lseek p fd k SEEK_SET).1 = k ∧
      filePosition (lseek p fd k SEEK_SET).2 fd.toNat = some k) ∧
    (∀ k : Int, k < 0 → lseek p fd k SEEK_SET = (-EINVAL, p)) := by
  have hb : ¬(fd < 0 ∨ (MAX_IO_DESCRIPTORS : Int) ≤ fd) :=
    not_or.mpr ⟨not_lt.mpr h0, not_le.mpr h1⟩
  have hlen : fd.toNat < p.io.length := length_of_getElem? hio
  have hset : ∀ a : IODescriptor, (p.io.set fd.toNat a)[fd.toNat]? = some a :=
    fun a => List.getElem?_set_eq_of_lt a hlen
  have hposn : ¬file.position < 0 := not_lt.mpr hpos
  refine ⟨?_, ?_, ?_⟩
  · constructor
    · simp [lseek, hb, hio, hdata, SEEK_CUR, SEEK_SET, hposn]
    · simp [lseek, hb, hio, hdata, SEEK_CUR, SEEK_SET, hposn, filePosition, hset]
  · intro k hk
    have hkn : ¬k < 0 := not_lt.mpr hk
    constructor
    · simp [lseek, hb, hio, hdata, SEEK_SET, hkn]
    · simp [lseek, hb, hio, hdata, SEEK_SET, hkn, filePosition, hset]
  · intro k hk
    simp [lseek, hb, hio, hdata, SEEK_SET, hk, EINVAL]

/-- C4 witness: the theorem applied at slot 0 of procA, whose file position is 5. -/
theorem lseek_cur_set_spec_witness :
    ((lseek procA 0 0 SEEK_CUR).1 = fileA.position ∧
      filePosition (lseek procA 0 0 SEEK_CUR).2 (Int.toNat 0) = some fileA.position) ∧
    (∀ k : Int, 0 ≤ k →
      (lseek procA 0 k SEEK_SET).1 = k ∧
      filePosition (lseek procA 0 k SEEK_SET).2 (Int.toNat 0) = some k) ∧
    (∀ k : Int, k < 0 → lseek procA 0 k SEEK_SET = (-EINVAL, procA)) :=
  lseek_cur_set_spec procA 0 iodA fileA (by decide) (by decide) rfl rfl (by decide)

/- Bitwise helper lemmas for the fcntl flag updates. -/

theorem decide_and_pow (x k : Nat) : decide (x &&& 2 ^ k ≠ 0) = x.testBit k := by
  rw [Nat.and_two_pow]
  cases h : x.testBit k
  · simp [h]
  · simp only [h, Bool.toNat_true, Nat.one_mul]
    exact decide_eq_true (Nat.two_pow_pos k).ne'

theorem testBit_setIf_ne (c : Bool) (x k b : Nat) (h : b ≠ k) :
    (setIf c x (2 ^ k)).testBit b = x.testBit b := by
  cases c <;>
    simp [setIf, Nat.testBit_lor, Nat.testBit_ldiff, Nat.testBit_two_pow_of_ne (Ne.symm h)]

theorem testBit_setIf_self (c : Bool) (x k : Nat) :
    (setIf c x (2 ^ k)).testBit k = c := by
  cases c <;> simp [setIf, Nat.testBit_lor, Nat.testBit_ldiff, Nat.testBit_two_pow_self]

/-- C9: fcntl F_SETFL rewrites exactly the O_APPEND (bit 2), O_NONBLOCK (bit 5), O_SYNC (bit 6) and O_DSYNC (bit 7) bits of the descriptor flags, each set iff the same bit of arg, leaving every other bit (in particular O_CLOEXEC, bit 3, and O_CLOFORK, bit 4) unchanged; F_SETFD rewrites exactly the O_CLOEXEC and O_CLOFORK bits, set iff the FD_CLOEXEC (bit 0) and FD_CLOFORK (bit 1) bits of arg, leaving every other bit unchanged; any command besides F_GETFD, F_GETFL, F_SETFD and F_SETFL returns -EINVAL with the process unchanged. -/
theorem fcntl_frame (p : Process) (fd : Int) (iod : IODescriptor) (arg : Nat)
    (h0 : 0 ≤ fd) (h1 : fd < (MAX_IO_DESCRIPTORS : Int))
    (hio : p.io[fd.toNat]? = some iod)
    (hvalid : iod.valid = true) :
    (∃ f : Nat,
      fcntl p fd F_SETFL arg = (0, { p with io := p.io.set fd.toNat { iod with flags := f } }) ∧
      (∀ b : Nat, b ≠ 2 → b ≠ 5 → b ≠ 6 → b ≠ 7 → f.testBit b = iod.flags.testBit b) ∧
      f.testBit 2 = arg.testBit 2 ∧ f.testBit 5 = arg.testBit 5 ∧
      f.testBit 6 = arg.testBit 6 ∧ f.testBit 7 = arg.testBit 7) ∧
    (∃ g : Nat,
      fcntl p fd F_SETFD arg = (0, { p with io := p.io.set fd.toNat { iod with flags := g } }) ∧
      (∀ b : Nat, b ≠ 3 → b ≠ 4 → g.testBit b = iod.flags.testBit b) ∧
      g.testBit 3 = arg.testBit 0 ∧ g.testBit 4 = arg.testBit 1) ∧
    (∀ cmd : Int, cmd ≠ F_GETFD → cmd ≠ F_GETFL → cmd ≠ F_SETFD → cmd ≠ F_SETFL →
      fcntl p fd cmd arg = (-EINVAL, p)) := by
  have hb : ¬(fd < 0 ∨ (MAX_IO_DESCRIPTORS : Int) ≤ fd) :=
    not_or.mpr ⟨not_lt.mpr h0, not_le.mpr h1⟩
  have e2 : O_APPEND = 2 ^ 2 := rfl
  have e5 : O_NONBLOCK = 2 ^ 5 := rfl
  have e6 : O_SYNC = 2 ^ 6 := rfl
  have e7 : O_DSYNC = 2 ^ 7 := rfl
  have e3 : O_CLOEXEC = 2 ^ 3 := rfl
  have e4 : O_CLOFORK = 2 ^ 4 := rfl
  have e0 : FD_CLOEXEC = 2 ^ 0 := rfl
  have e1 : FD_CLOFORK = 2 ^ 1 := rfl
  refine ⟨?_, ?_, ?_⟩
  · refine ⟨setIf (decide (arg &&& O_DSYNC ≠ 0))
        (setIf (decide (arg &&& O_SYNC ≠ 0))
          (setIf (decide (arg &&& O_NONBLOCK ≠ 0))
            (setIf (decide (arg &&& O_APPEND ≠ 0)) iod.flags O_APPEND) O_NONBLOCK) O_SYNC)
        O_DSYNC, ?_, ?_, ?_, ?_, ?_, ?_⟩
    · simp [fcntl, hb, hio, hvalid, F_SETFL, F_GETFD, F_GETFL, F_SETFD]
    · intro b hb2 hb5 hb6 hb7
      rw [e2, e5, e6, e7, testBit_setIf_ne _ _ _ _ hb7, testBit_setIf_ne _ _ _ _ hb6,
        testBit_setIf_ne _ _ _ _ hb5, testBit_setIf_ne _ _ _ _ hb2]
    · rw [e2, e5, e6, e7, testBit_setIf_ne _ _ _ _ (by omega), testBit_setIf_ne _ _ _ _ (by omega),
        testBit_setIf_ne _ _ _ _ (by omega), testBit_setIf_self]
      exact decide_and_pow arg 2
    · rw [e2, e5, e6, e7, testBit_setIf_ne _ _ _ _ (by omega), testBit_setIf_ne _ _ _ _ (by omega),
        testBit_setIf_self]
      exact decide_and_pow arg 5
    · rw [e2, e5, e6, e7, testBit_setIf_ne _ _ _ _ (by omega), testBit_setIf_self]
      exact decide_and_pow arg 6
    · rw [e2, e5, e6, e7, testBit_setIf_self]
      exact decide_and_pow arg 7
  · refine ⟨setIf (decide (arg &&& FD_CLOFORK ≠ 0))
        (setIf (decide (arg &&& FD_CLOEXEC ≠ 0)) iod.flags O_CLOEXEC) O_CLOFORK, ?_, ?_, ?_, ?_⟩
    · simp [fcntl, hb, hio, hvalid, F_SETFL, F_GETFD, F_GETFL, F_SETFD]
    · intro b hb3 hb4
      rw [e3, e4, testBit_setIf_ne _ _ _ _ hb4, testBit_setIf_ne _ _ _ _ hb3]
    · rw [e3, e4, testBit_setIf_ne _ _ _ _ (by omega), testBit_setIf_self]
      exact decide_and_pow arg 0
    · rw [e3, e4, testBit_setIf_self]
      exact decide_and_pow arg 1
  · intro cmd hc1 hc3 hc2 hc4
    simp [fcntl, hb, hio, hvalid, hc1, hc2, hc3, hc4, EINVAL]

/-- C9 witness: the theorem applied at slot 0 of procA with arg 255. -/
theorem fcntl_frame_witness :
    (∃ f : Nat,
      fcntl procA 0 F_SETFL 255 =
        (0, { procA with io := procA.io.set (Int.toNat 0) { iodA with flags := f } }) ∧
      (∀ b : Nat, b ≠ 2 → b ≠ 5 → b ≠ 6 → b ≠ 7 → f.testBit b = iodA.flags.testBit b) ∧
      f.testBit 2 = Nat.testBit 255 2 ∧ f.testBit 5 = Nat.testBit 255 5 ∧
      f.testBit 6 = Nat.testBit 255 6 ∧ f.testBit 7 = Nat.testBit 255 7) ∧
    (∃ g : Nat,
      fcntl procA 0 F_SETFD 255 =
        (0, { procA with io := procA.io.set (Int.toNat 0) { iodA with flags := g } }) ∧
      (∀ b : Nat, b ≠ 3 → b ≠ 4 → g.testBit b = iodA.flags.testBit b) ∧
      g.testBit 3 = Nat.testBit 255 0 ∧ g.testBit 4 = Nat.testBit 255 1) ∧
    (∀ cmd : Int, cmd ≠ F_GETFD → cmd ≠ F_GETFL → cmd ≠ F_SETFD → cmd ≠ F_SETFL →
      fcntl procA 0 cmd 255 = (-EINVAL, procA)) :=
  fcntl_frame procA 0 iodA 255 (by decide) (by decide) rfl rfl

/-- C10: for a valid FILE descriptor open for writing, writeFile sends position -1 when O_APPEND is set in the descriptor flags and the stored position otherwise, and returns with the FileDescriptor unchanged (the C body performs no store to it). -/
theorem writeFile_append_position (p : Process) (msgId : Nat) (iod : IODescriptor)
    (file : FileDescriptor) (buffer : List Nat) (count : Nat)
    (hdata : iod.data = some file)
    (hw : iod.flags &&& O_WRONLY ≠ 0) :
    ∃ msg : RWCommand,
      writeFile p msgId iod buffer count = Except.ok (msg, file) ∧
      msg.position = (if iod.flags &&& O_APPEND ≠ 0 then (-1 : Int) else file.position) := by
  simp only [writeFile, hdata]
  rw [if_neg hw]
  exact ⟨_, rfl, rfl⟩

/-- C10 witness: the theorem applied to procA's descriptor, once as is and once with O_APPEND set. -/
theorem writeFile_append_position_witness :
    (∃ msg : RWCommand,
      writeFile procA 9 iodA [1, 2] 2 = Except.ok (msg, fileA) ∧
      msg.position = (if iodA.flags &&& O_APPEND ≠ 0 then (-1 : Int) else fileA.position)) ∧
    (∃ msg : RWCommand,
      writeFile procA 9 { iodA with flags := iodA.flags ||| O_APPEND } [1, 2] 2 =
        Except.ok (msg, fileA) ∧
      msg.position =
        (if ({ iodA with flags := iodA.flags ||| O_APPEND } : IODescriptor).flags &&& O_APPEND ≠ 0
         then (-1 : Int)
         else fileA.position)) :=
  ⟨writeFile_append_position procA 9 iodA fileA [1, 2] 2 rfl (by decide),
   writeFile_append_position procA 9 { iodA with flags := iodA.flags ||| O_APPEND } fileA
     [1, 2] 2 rfl (by decide)⟩

/- Registry helper lemmas. -/

theorem findThread_some_tid {ts : List Thread} {tid : Nat} {t : Thread}
    (h : findThread ts tid = some t) : t.tid = tid := by
  have := List.find?_some h
  simpa using this

theorem findThread_updateList_self {ts : List Thread} {tid : Nat} {u : Thread}
    (hu : findThread ts tid = some u) (t : Thread) (ht : t.tid = tid) :
    findThread (updateList t ts) tid = some t := by
  induction ts with
  | nil => simp [findThread] at hu
  | cons a l ih =>
    by_cases ha : a.tid = tid
    · have h1 : (a.tid == t.tid) = true := by simp [ht, ha]
      have h2 : (t.tid == tid) = true := by simp [ht]
      simp [findThread, updateList, List.find?, h1, h2]
    · have h1 : (a.tid == t.tid) = false := by
        rw [ht]
        exact beq_eq_false_iff_ne.mpr ha
      have h2 : (a.tid == tid) = false := beq_eq_false_iff_ne.mpr ha
      have hu2 : findThread l tid = some u := by
        simpa [findThread, List.find?, h2] using hu
      simpa [findThread, updateList, List.find?, h1, h2] using ih hu2

theorem getThread_updateThread_self {s : KState} {tid : Nat} {u : Thread}
    (hu : getThread s tid = some u) (t : Thread) (ht : t.tid = tid) :
    getThread (updateThread s t) tid = some t :=
  findThread_updateList_self hu t ht

theorem updateThread_queue (s : KState) (t : Thread) : (updateThread s t).queue = s.queue := rfl

theorem syscallEnqueue_queue (s : KState) (tid : Nat) :
    (syscallEnqueue s tid).queue = s.queue ++ [tid] := by
  unfold syscallEnqueue
  cases h : getThread s tid <;> rfl

theorem getThread_syscallEnqueue_self {s : KState} {tid : Nat} {t : Thread}
    (ht : getThread s tid = some t) :
    getThread (syscallEnqueue s tid) tid =
      some { t with syscall := enqMark t.status t.syscall } := by
  have htid : t.tid = tid := findThread_some_tid ht
  unfold syscallEnqueue
  rw [ht]
  exact findThread_updateList_self ht _ htid

theorem syscallDequeue_some {s : KState} {tid : Nat} {rest : List Nat}
    (hq : s.queue = tid :: rest) :
    ∃ s1 : KState, syscallDequeue s = some (tid, s1) ∧ s1.queue = rest := by
  unfold syscallDequeue
  rw [hq]
  cases h : getThread { s with queue := rest } tid <;> simp [h, updateThread]

theorem syscallDequeue_result {s : KState} {tid : Nat} {rest : List Nat} {u : Thread}
    (hq : s.queue = tid :: rest)
    (hu : getThread s tid = some u) :
    syscallDequeue s =
      some (tid, updateThread { s with queue := rest } { u with syscall := deqMark u.syscall }) ∧
    getThread
        (updateThread { s with queue := rest } { u with syscall := deqMark u.syscall }) tid =
      some { u with syscall := deqMark u.syscall } ∧
    (updateThread { s with queue := rest }
        { u with syscall := deqMark u.syscall }).queue = rest := by
  have hu2 : getThread { s with queue := rest } tid = some u := hu
  have hut : u.tid = tid := findThread_some_tid hu
  refine ⟨?_, ?_, rfl⟩
  · unfold syscallDequeue
    rw [hq]
    simp [hu2]
  · exact getThread_updateThread_self hu2 _ hut

/- Fixtures for the syscall-queue counterexamples and witnesses. -/

/-- A zeroed syscall record (threads are allocated zero-filled, and a request that completed a full queued round trip also ends with all four flags clear). -/
def reqZ : SyscallRequest :=
  { busy := false, queued := false, unblock := false, retry := false,
    function := 0, params := [], ret := 0 }

/-- A running thread with a quiescent syscall record. -/
def threadB : Thread :=
  { tid := 3, pid := 3, status := ThreadStatus.running, priority := 0, time := 0,
    contextStatus := 0, syscall := reqZ }

/-- Kernel state containing only threadB, with an empty request queue. -/
def stateB : KState := { threads := [threadB], queue := [] }

/-- Concrete fast-path bounds: IPC range 1 to 5, read-write range 10 to 12, lseek number 20. -/
def boundsB : FastPathBounds :=
  { ipcStart := 1, ipcEnd := 5, rwStart := 10, rwEnd := 12, lseekNum := 20 }

/-- A handler that leaves the thread blocked pending I/O: return value 7, unblock false (a recv with no data, per the spec fast-path description). -/
def blockHandler : Handler :=
  fun _ => { ret := 7, unblock := false, retry := false, newStatus := none }

/-- C1 counterexample: running the fast-path syscall 3 of boundsB on threadB with a handler that does not unblock leaves the thread BLOCKED with busy and queued both false, so the claimed exclusive-or is false for this BLOCKED thread. -/
theorem fastpath_blocked_xor_fails :
    ∃ t : Thread,
      getThread (syscallHandle boundsB blockHandler 3 [] 3 stateB).state 3 = some t ∧
      t.status = ThreadStatus.blocked ∧
      t.syscall.busy = false ∧ t.syscall.queued = false ∧
      Bool.xor t.syscall.busy t.syscall.queued = false := by
  refine ⟨{ tid := 3, pid := 3, status := ThreadStatus.blocked, priority := 0, time := 0,
            contextStatus := 3,
            syscall := { busy := false, queued := false, unblock := false, retry := false,
                         function := 3, params := [], ret := 7 } }, ?_, rfl, rfl, rfl, rfl⟩
  decide

theorem syscallHandle_enqueue_trace (b : FastPathBounds) (h : Handler) (fn : Nat)
    (params : List Int) (tid : Nat) (s : KState) (t : Thread)
    (hfast : isFastPath b fn = false) (ht : getThread s tid = some t) :
    (syscallHandle b h fn params tid s).state.queue = s.queue ++ [tid] ∧
    (syscallHandle b h fn params tid s).dispatched = false ∧
    (syscallHandle b h fn params tid s).resumed = false ∧
    getThread (syscallHandle b h fn params tid s).state tid =
      some { platformCreateSyscallContext { t with contextStatus := (fn : Int) } fn params with
             syscall := enqMark t.status
               (platformCreateSyscallContext
                 { t with contextStatus := (fn : Int) } fn params).syscall,
             status := ThreadStatus.blocked } := by
  have htid : t.tid = tid := findThread_some_tid ht
  have h1 : getThread (updateThread s
      (platformCreateSyscallContext { t with contextStatus := (fn : Int) } fn params)) tid =
      some (platformCreateSyscallContext { t with contextStatus := (fn : Int) } fn params) :=
    getThread_updateThread_self ht _ htid
  have h2 := getThread_syscallEnqueue_self h1
  refine ⟨?_, ?_, ?_, ?_⟩
  · simp only [syscallHandle, ht, hfast, Bool.false_eq_true, if_false, h2]
    rw [updateThread_queue, syscallEnqueue_queue, updateThread_queue]
  · simp only [syscallHandle, ht, hfast, Bool.false_eq_true, if_false, h2]
  · simp only [syscallHandle, ht, hfast, Bool.false_eq_true, if_false, h2]
  · simp only [syscallHandle, ht, hfast, Bool.false_eq_true, if_false, h2]
    exact getThread_updateThread_self h2 _ htid

/-- C1 (amended): a thread blocked via the queued path satisfies the exclusive-or - after syscallHandle enqueues its request the thread is BLOCKED with queued and not busy, and a request handed to a worker by syscallDequeue has busy and not queued - but a thread left BLOCKED by a fast-path syscall has both flags false, so the exclusive-or holds only for queued-path threads. -/
theorem blocked_busy_queued_xor (b : FastPathBounds) (h : Handler) (fn : Nat)
    (params : List Int) (tid : Nat) (s : KState) (t : Thread)
    (hfast : isFastPath b fn = false)
    (ht : getThread s tid = some t) :
    (∃ t2, getThread (syscallHandle b h fn params tid s).state tid = some t2 ∧
      t2.status = ThreadStatus.blocked ∧ t2.syscall.queued = true ∧ t2.syscall.busy = false ∧
      Bool.xor t2.syscall.busy t2.syscall.queued = true) ∧
    (∀ (s2 : KState) (tid2 : Nat) (rest : List Nat) (u : Thread),
      s2.queue = tid2 :: rest → getThread s2 tid2 = some u →
      ∃ s3 t3, syscallDequeue s2 = some (tid2, s3) ∧ getThread s3 tid2 = some t3 ∧
        t3.syscall.busy = true ∧ t3.syscall.queued = false ∧
        Bool.xor t3.syscall.busy t3.syscall.queued = true) := by
  constructor
  · obtain ⟨-, -, -, hget⟩ := syscallHandle_enqueue_trace b h fn params tid s t hfast ht
    exact ⟨_, hget, rfl, rfl, rfl, rfl⟩
  · intro s2 tid2 rest u hq hu
    obtain ⟨hdq, hget, -⟩ := syscallDequeue_result hq hu
    exact ⟨_, _, hdq, hget, rfl, rfl, rfl⟩

/-- C1 witness: the amended theorem applied to threadB issuing the queued-path syscall 7 under boundsB. -/
theorem blocked_busy_queued_xor_witness :
    (∃ t2, getThread (syscallHandle boundsB blockHandler 7 [] 3 stateB).state 3 = some t2 ∧
      t2.status = ThreadStatus.blocked ∧ t2.syscall.queued = true ∧ t2.syscall.busy = false ∧
      Bool.xor t2.syscall.busy t2.syscall.queued = true) ∧
    (∀ (s2 : KState) (tid2 : Nat) (rest : List Nat) (u : Thread),
      s2.queue = tid2 :: rest → getThread s2 tid2 = some u →
      ∃ s3 t3, syscallDequeue s2 = some (tid2, s3) ∧ getThread s3 tid2 = some t3 ∧
        t3.syscall.busy = true ∧ t3.syscall.queued = false ∧
        Bool.xor t3.syscall.busy t3.syscall.queued = true) :=
  blocked_busy_queued_xor boundsB blockHandler 7 [] 3 stateB threadB rfl rfl

/-- Repeatedly dequeue, collecting the returned request (thread id) of each step; the fuel bounds the number of dequeues. -/
def drainAll : Nat → KState → List Nat
  | 0, _ => []
  | Nat.succ n, s =>
    match syscallDequeue s with
    | none => []
    | some (tid, s1) => tid :: drainAll n s1

theorem drainAll_queue : ∀ (l : List Nat) (s : KState), s.queue = l → drainAll l.length s = l := by
  intro l
  induction l with
  | nil => intro s hq; rfl
  | cons a rest ih =>
    intro s hq
    obtain ⟨s1, hdq, hq1⟩ := syscallDequeue_some hq
    simp [drainAll, hdq, ih s1 hq1]

/-- C8: the global request list is FIFO - syscallDequeue on an empty queue returns null, syscallEnqueue links the request (identified by its owning thread id) at the tail, and repeatedly dequeueing any state returns the queued requests in their enqueue order. -/
theorem syscallQueue_fifo :
    (∀ ts : List Thread, syscallDequeue { threads := ts, queue := [] } = none) ∧
    (∀ (s : KState) (tid : Nat), (syscallEnqueue s tid).queue = s.queue ++ [tid]) ∧
    (∀ s : KState, drainAll s.queue.length s = s.queue) :=
  ⟨fun _ => rfl, syscallEnqueue_queue, fun s => drainAll_queue s.queue s rfl⟩

/-- C5 counterexample: a fast-path syscall dispatched synchronously whose handler leaves unblock false writes no return value into the thread's context - the saved context register still holds the trap-time value 3 (the function number) while the request's return value is 7 - refuting the claim that the return value is written into the thread's context immediately for every fast-path dispatch. -/
theorem fastpath_context_not_written :
    (syscallHandle boundsB blockHandler 3 [] 3 stateB).dispatched = true ∧
    ∃ t : Thread,
      getThread (syscallHandle boundsB blockHandler 3 [] 3 stateB).state 3 = some t ∧
      t.syscall.ret = 7 ∧ t.status = ThreadStatus.blocked ∧ t.contextStatus = 3 ∧
      t.contextStatus ≠ t.syscall.ret := by
  refine ⟨rfl, ?_⟩
  refine ⟨{ tid := 3, pid := 3, status := ThreadStatus.blocked, priority := 0, time := 0,
            contextStatus := 3,
            syscall := { busy := false, queued := false, unblock := false, retry := false,
                         function := 3, params := [], ret := 7 } },
          by decide, rfl, rfl, rfl, by decide⟩

/-- C5 (amended): syscallHandle dispatches the handler synchronously in trap context iff the function number is in the IPC range, the read-write range, or equals SYSCALL_LSEEK; on the fast path, when the handler sets unblock the return value is written into the thread's context and the thread resumes RUNNING, and when it clears unblock the thread stays BLOCKED and the context register is not updated; every other function number is appended to the global request queue and the thread's status is set to BLOCKED. -/
theorem syscallHandle_fastpath_spec (b : FastPathBounds) (h : Handler) (fn : Nat)
    (params : List Int) (tid : Nat) (s : KState) (t : Thread)
    (ht : getThread s tid = some t) :
    ((syscallHandle b h fn params tid s).dispatched = isFastPath b fn) ∧
    (isFastPath b fn = true →
      (runHandler h (platformCreateSyscallContext
          { t with contextStatus := (fn : Int) } fn params)).syscall.unblock = true →
      (syscallHandle b h fn params tid s).resumed = true ∧
      getThread (syscallHandle b h fn params tid s).state tid =
        some { runHandler h (platformCreateSyscallContext
                 { t with contextStatus := (fn : Int) } fn params) with
               status := ThreadStatus.running,
               contextStatus := (runHandler h (platformCreateSyscallContext
                 { t with contextStatus := (fn : Int) } fn params)).syscall.ret }) ∧
    (isFastPath b fn = true →
      (runHandler h (platformCreateSyscallContext
          { t with contextStatus := (fn : Int) } fn params)).syscall.unblock = false →
      (syscallHandle b h fn params tid s).resumed = false ∧
      getThread (syscallHandle b h fn params tid s).state tid =
        some { runHandler h (platformCreateSyscallContext
                 { t with contextStatus := (fn : Int) } fn params) with
               status := ThreadStatus.blocked }) ∧
    (isFastPath b fn = false →
      (syscallHandle b h fn params tid s).state.queue = s.queue ++ [tid] ∧
      (syscallHandle b h fn params tid s).resumed = false ∧
      ∃ t3, getThread (syscallHandle b h fn params tid s).state tid = some t3 ∧
        t3.status = ThreadStatus.blocked) := by
  have htid : t.tid = tid := findThread_some_tid ht
  refine ⟨?_, ?_, ?_, ?_⟩
  · cases hf : isFastPath b fn with
    | false =>
      exact (syscallHandle_enqueue_trace b h fn params tid s t hf ht).2.1
    | true =>
      cases hub : (runHandler h (platformCreateSyscallContext
          { t with contextStatus := (fn : Int) } fn params)).syscall.unblock <;>
        simp [syscallHandle, ht, hf, hub]
  · intro hf hub
    constructor
    · simp [syscallHandle, ht, hf, hub]
    · simp only [syscallHandle, ht, hf, if_true, hub]
      exact getThread_updateThread_self ht _ htid
  · intro hf hub
    constructor
    · simp [syscallHandle, ht, hf, hub]
    · simp only [syscallHandle, ht, hf, if_true, hub]
      exact getThread_updateThread_self ht _ htid
  · intro hf
    obtain ⟨hqueue, -, hres, hget⟩ := syscallHandle_enqueue_trace b h fn params tid s t hf ht
    exact ⟨hqueue, hres, _, hget, rfl⟩

/-- C5 witness: the amended theorem applied to threadB issuing fast-path syscall 3 under boundsB with a handler that clears unblock. -/
theorem syscallHandle_fastpath_spec_witness :
    (syscallHandle boundsB blockHandler 3 [] 3 stateB).dispatched = isFastPath boundsB 3 ∧
    (syscallHandle boundsB blockHandler 3 [] 3 stateB).resumed = false ∧
    getThread (syscallHandle boundsB blockHandler 3 [] 3 stateB).state 3 =
      some { runHandler blockHandler (platformCreateSyscallContext
               { threadB with contextStatus := ((3 : Nat) : Int) } 3 []) with
             status := ThreadStatus.blocked } := by
  obtain ⟨h1, -, h3, -⟩ :=
    syscallHandle_fastpath_spec boundsB blockHandler 3 [] 3 stateB threadB rfl
  obtain ⟨h4, h5⟩ := h3 rfl rfl
  exact ⟨h1, h4, h5⟩

/-- C6: in syscallProcess, for a dequeued request with a valid function number whose thread is BLOCKED, signal delivery (sigH, the spec-modelled signalHandle) runs on the busy-marked thread before any handler can run; if delivery leaves the thread ZOMBIE the request is abandoned (no handler, queue just loses the head), if it leaves the thread QUEUED the request is re-enqueued at the tail instead of executed, and the handler runs only if the thread is still BLOCKED after delivery. -/
theorem syscallProcess_signal_first (maxS : Nat) (defined : Nat → Bool)
    (sigH : Thread → Thread) (h : Handler) (ts : Nat → Nat)
    (tid : Nat) (rest : List Nat) (s : KState) (t : Thread)
    (hq : s.queue = tid :: rest)
    (ht : getThread s tid = some t)
    (hblocked : t.status = ThreadStatus.blocked)
    (hfn : t.syscall.function ≤ maxS)
    (hdef : defined t.syscall.function = true) :
    ((sigH { t with syscall := deqMark t.syscall }).status = ThreadStatus.zombie →
      (syscallProcess maxS defined sigH h ts s).ranHandler = false ∧
      (syscallProcess maxS defined sigH h ts s).state.queue = rest) ∧
    ((sigH { t with syscall := deqMark t.syscall }).status = ThreadStatus.queued →
      (syscallProcess maxS defined sigH h ts s).ranHandler = false ∧
      (syscallProcess maxS defined sigH h ts s).state.queue = rest ++ [tid]) ∧
    ((syscallProcess maxS defined sigH h ts s).ranHandler = true →
      (sigH { t with syscall := deqMark t.syscall }).status = ThreadStatus.blocked) := by
  obtain ⟨hdq, hget1, -⟩ := syscallDequeue_result hq ht
  rw [hblocked] at hdq hget1
  have hne : ¬(s.queue = []) := by simp [hq]
  have hfnlt : ¬(maxS < t.syscall.function) := Nat.not_lt.mpr hfn
  have hfunc : (deqMark t.syscall).function = t.syscall.function := rfl
  refine ⟨?_, ?_, ?_⟩
  · intro hz
    rw [hblocked] at hz
    constructor <;>
      simp [syscallProcess, hne, hdq, hget1, hblocked, hfunc, hfnlt, hdef, hz,
        updateThread_queue]
  · intro hqd
    rw [hblocked] at hqd
    constructor <;>
      simp [syscallProcess, hne, hdq, hget1, hblocked, hfunc, hfnlt, hdef, hqd,
        updateThread_queue, syscallEnqueue_queue]
  · intro hran
    rw [hblocked]
    cases hst : (sigH { t with status := ThreadStatus.blocked, syscall := deqMark t.syscall }).status <;>
      simp [syscallProcess, hne, hdq, hget1, hblocked, hfunc, hfnlt, hdef, hst,
        updateThread_queue] at hran ⊢

/-- A BLOCKED thread whose request (function 1) sits at the head of the queue. -/
def threadQ : Thread :=
  { tid := 3, pid := 3, status := ThreadStatus.blocked, priority := 0, time := 0,
    contextStatus := 0,
    syscall := { busy := false, queued := true, unblock := false, retry := false,
                 function := 1, params := [], ret := 0 } }

/-- Kernel state with threadQ's request queued. -/
def stateQ : KState := { threads := [threadQ], queue := [3] }

/-- A signal-delivery effect that terminates the thread (a fatal signal). -/
def killSig : Thread → Thread := fun u => { u with status := ThreadStatus.zombie }

/-- A dispatch table with every slot occupied. -/
def definedAll : Nat → Bool := fun _ => true

/-- C6 witness: the theorem applied to stateQ with a fatal signal-delivery effect. -/
theorem syscallProcess_signal_first_witness :
    ((killSig { threadQ with syscall := deqMark threadQ.syscall }).status = ThreadStatus.zombie →
      (syscallProcess 5 definedAll killSig blockHandler (fun _ => 10) stateQ).ranHandler = false ∧
      (syscallProcess 5 definedAll killSig blockHandler (fun _ => 10) stateQ).state.queue = []) ∧
    ((killSig { threadQ with syscall := deqMark threadQ.syscall }).status = ThreadStatus.queued →
      (syscallProcess 5 definedAll killSig blockHandler (fun _ => 10) stateQ).ranHandler = false ∧
      (syscallProcess 5 definedAll killSig blockHandler (fun _ => 10) stateQ).state.queue =
        [] ++ [3]) ∧
    ((syscallProcess 5 definedAll killSig blockHandler (fun _ => 10) stateQ).ranHandler = true →
      (killSig { threadQ with syscall := deqMark threadQ.syscall }).status =
        ThreadStatus.blocked) :=
  syscallProcess_signal_first 5 definedAll killSig blockHandler (fun _ => 10) 3 [] stateQ threadQ
    rfl rfl rfl (by decide) rfl

/-- C7: handleGeneralRequest reaches the command dispatch table (result not rejected) iff the response flag is clear, the requester is nonzero, the length is at least sizeof MessageHeader, the requester thread exists, and the requester is either the Router (lumen) or a thread whose process's parent is the Router; a dispatched handler is always the entry for the request's own command. -/
theorem handleGeneralRequest_checks (lumen : Nat) (threads : List Thread)
    (procs : List Process) (table : Nat → Bool) (req : MessageHeader) :
    (handleGeneralRequest lumen threads procs table req ≠ GeneralResult.rejected ↔
      (req.response = false ∧ req.requester ≠ 0 ∧ sizeofMessageHeader ≤ req.length ∧
       ∃ t, findThread threads req.requester = some t ∧
         (req.requester = lumen ∨
          ∃ p, getProcess procs t.pid = some p ∧ p.parent = lumen))) ∧
    (∀ c : Nat, handleGeneralRequest lumen threads procs table req = GeneralResult.dispatched c →
      c = req.command ∧ table req.command = true) := by
  unfold handleGeneralRequest
  by_cases h1 : (req.response || req.requester == 0 ||
      decide (req.length < sizeofMessageHeader)) = true
  · rw [if_pos h1]
    refine ⟨⟨fun hcontra => absurd rfl hcontra, ?_⟩, fun c hc => absurd hc (by simp)⟩
    rintro ⟨hresp, hreq, hlen, -⟩
    rw [hresp, beq_eq_false_iff_ne.mpr hreq,
      decide_eq_false (Nat.not_lt.mpr hlen)] at h1
    simp at h1
  · rw [if_neg h1]
    have h1x := h1
    simp only [Bool.or_eq_true, beq_iff_eq, decide_eq_true_eq, not_or] at h1x
    obtain ⟨⟨hrespn, hreqne⟩, hlenn⟩ := h1x
    have hresp : req.response = false := by
      cases hb : req.response
      · rfl
      · exact absurd hb hrespn
    have hlen : sizeofMessageHeader ≤ req.length := Nat.not_lt.mp hlenn
    cases hft : findThread threads req.requester with
    | none =>
      refine ⟨⟨fun hcontra => absurd rfl hcontra, ?_⟩, fun c hc => absurd hc (by simp)⟩
      rintro ⟨-, -, -, t1, hts, -⟩
      cases hts
    | some t0 =>
      by_cases hal : (req.requester == lumen ||
          (match getProcess procs t0.pid with
           | none => false
           | some p => p.parent == lumen)) = true
      · have hrhs : req.requester = lumen ∨
            ∃ p, getProcess procs t0.pid = some p ∧ p.parent = lumen := by
          simp only [Bool.or_eq_true, beq_iff_eq] at hal
          rcases hal with hl | hm
          · exact Or.inl hl
          · cases hgp : getProcess procs t0.pid with
            | none => rw [hgp] at hm; cases hm
            | some p =>
              rw [hgp] at hm
              exact Or.inr ⟨p, rfl, by simpa using hm⟩
        constructor
        · constructor
          · exact fun _ => ⟨hresp, hreqne, hlen, t0, rfl, hrhs⟩
          · intro _
            cases htab : table req.command <;> simp [htab, hal]
        · intro c hc
          cases htab : table req.command
          · simp [htab, hal] at hc
          · simp [htab, hal] at hc
            exact ⟨hc.symm, rfl⟩
      · have hnrhs : ¬(req.requester = lumen ∨
            ∃ p, getProcess procs t0.pid = some p ∧ p.parent = lumen) := by
          intro hx
          apply hal
          simp only [Bool.or_eq_true, beq_iff_eq]
          rcases hx with hl | ⟨p, hgp, hpar⟩
          · exact Or.inl hl
          · right
            rw [hgp]
            simpa using hpar
        constructor
        · constructor
          · intro hcontra
            simp [hal] at hcontra
          · rintro ⟨-, -, -, t1, hts, hor⟩
            obtain rfl : t0 = t1 := Option.some.inj hts
            exact absurd hor hnrhs
        · intro c hc
          simp [hal] at hc

/-- A process that is a direct child of the Router (pid 1). -/
def procR : Process :=
  { pid := 2, parent := 1, user := 0, group := 0, umask := 0, cwd := "/", io := [] }

/-- The requester thread of procR. -/
def threadR : Thread :=
  { tid := 2, pid := 2, status := ThreadStatus.running, priority := 0, time := 0,
    contextStatus := 0, syscall := reqZ }

/-- A dispatch table with only slot 6 (the framebuffer request) occupied, as in general.c. -/
def tableR : Nat → Bool := fun c => c == 6

/-- A well-formed framebuffer request from thread 2. -/
def reqR : MessageHeader :=
  { command := 6, length := 64, id := 1, requester := 2, response := false }

/-- C7 witness: the theorem applied to a concrete request from a direct child of the Router. -/
theorem handleGeneralRequest_checks_witness :
    (handleGeneralRequest 1 [threadR] [procR] tableR reqR ≠ GeneralResult.rejected ↔
      (reqR.response = false ∧ reqR.requester ≠ 0 ∧ sizeofMessageHeader ≤ reqR.length ∧
       ∃ t, findThread [threadR] reqR.requester = some t ∧
         (reqR.requester = 1 ∨
          ∃ p, getProcess [procR] t.pid = some p ∧ p.parent = 1))) ∧
    (∀ c : Nat, handleGeneralRequest 1 [threadR] [procR] tableR reqR =
        GeneralResult.dispatched c →
      c = reqR.command ∧ tableR reqR.command = true) :=
  handleGeneralRequest_checks 1 [threadR] [procR] tableR reqR

end Lux
